import Mathlib

/-!
Shallow embedding of the agent-template prototype (agentTemplate.ts, demo.ts,
server part) for verification of the specification's claims.

Strings are modelled as lists of characters (`Str`), so that JavaScript's
string operations (trim, toLowerCase, replace of whitespace runs,
concatenation in template literals) become explicit list functions.
The millisecond clock `Date.now()` is modelled by an oracle `Nat → Nat`
read at an explicit call index, threaded in source evaluation order.
-/

namespace AgentProto

abbrev Str := List Char

/-- Whitespace as matched by JavaScript's trim and the regex class backslash-s
(ASCII whitespace plus no-break space and BOM; the exotic Unicode spaces are
not exercised by any claim). -/
def isWs (c : Char) : Bool :=
  c == ' ' || c == '\t' || c == '\n' || c == '\r' || c == '\x0b' || c == '\x0c' ||
  c == '\u00A0' || c == '\uFEFF'

/-- Remove leading whitespace (front half of String.prototype.trim). -/
def trimLeft (s : Str) : Str := s.dropWhile isWs

/-- Remove trailing whitespace (back half of String.prototype.trim). -/
def trimRight (s : Str) : Str := (s.reverse.dropWhile isWs).reverse

/-- JavaScript String.prototype.trim. -/
def trim (s : Str) : Str := trimRight (trimLeft s)

theorem dropWhile_ws_all_left (p l : Str) (h : ∀ c ∈ p, isWs c = true) :
    (p ++ l).dropWhile isWs = l.dropWhile isWs := by
  induction p with
  | nil => rfl
  | cons c cs ih =>
    have hc : isWs c = true := h c (List.mem_cons_self c cs)
    simp only [List.cons_append, List.dropWhile_cons, hc, if_true]
    exact ih (fun x hx => h x (List.mem_cons_of_mem c hx))

theorem trimLeft_append (a b : Str) :
    trimLeft (a ++ b) = if trimLeft a = [] then trimLeft b else trimLeft a ++ b := by
  induction a with
  | nil => simp [trimLeft]
  | cons c cs ih =>
    by_cases hc : isWs c = true
    · simpa [trimLeft, List.dropWhile_cons, hc] using ih
    · simp [trimLeft, List.dropWhile_cons, hc]

theorem trimRight_append_ws (l sfx : Str) (h : ∀ c ∈ sfx, isWs c = true) :
    trimRight (l ++ sfx) = trimRight l := by
  unfold trimRight
  rw [List.reverse_append]
  rw [dropWhile_ws_all_left sfx.reverse l.reverse
    (fun c hc => h c (List.mem_reverse.mp hc))]

theorem trim_append_ws (l sfx : Str) (h : ∀ c ∈ sfx, isWs c = true) :
    trim (l ++ sfx) = trim l := by
  unfold trim
  rw [trimLeft_append]
  by_cases he : trimLeft l = []
  · have hsfx : trimLeft sfx = [] := by
      have := dropWhile_ws_all_left sfx [] h
      simpa [trimLeft] using this
    simp [he, hsfx]
  · simp only [he, if_false]
    exact trimRight_append_ws _ _ h

theorem trim_cons_ws (c : Char) (l : Str) (h : isWs c = true) :
    trim (c :: l) = trim l := by
  unfold trim trimLeft
  simp [List.dropWhile_cons, h]

/-- The newline character that the template literal embeds between lines. -/
def nl : Str := ['\n']

/-- Template-literal body of agentTemplate.ts lines 38-42, before trimming:
a leading newline, the instructions, the name line, the tone line, and the
closing-line indentation of two spaces. -/
def codePromptRaw (I N P : Str) : Str :=
  nl ++ I ++ nl ++ "Your name is ".toList ++ N ++ ".".toList ++
    nl ++ "Please respond in a ".toList ++ P ++ " tone.".toList ++ nl ++ "  ".toList

/-- Modelled from the spec's words (section 4.1): the exact three-part
concatenation — instructions, then the name line, then the tone line — to be
compared with the source's template literal. -/
def specPromptRaw (I N P : Str) : Str :=
  I ++ nl ++ "Your name is ".toList ++ N ++ ".".toList ++
    nl ++ "Please respond in a ".toList ++ P ++ " tone.".toList

/-- fullInstructions of createAgentTemplate: the template literal, trimmed. -/
def composeFullInstructions (I N P : Str) : Str := trim (codePromptRaw I N P)

/-- Modelled from the spec's words: the three-part concatenation, trimmed. -/
def specSystemPrompt (I N P : Str) : Str := trim (specPromptRaw I N P)

theorem codePromptRaw_eq (I N P : Str) :
    codePromptRaw I N P = '\n' :: (specPromptRaw I N P ++ (nl ++ "  ".toList)) := by
  simp [codePromptRaw, specPromptRaw, nl, List.append_assoc]

theorem composeFull_eq_spec (I N P : Str) :
    composeFullInstructions I N P = specSystemPrompt I N P := by
  unfold composeFullInstructions specSystemPrompt
  rw [codePromptRaw_eq]
  rw [trim_cons_ws '\n' _ (by decide)]
  exact trim_append_ws (specPromptRaw I N P) (nl ++ "  ".toList) (by decide)

/-- JavaScript String.prototype.toLowerCase, character-wise. -/
def lowerStr (s : Str) : Str := s.map Char.toLower

/-- Replacement pass of the regex substitution replacing each maximal
whitespace run by one underscore; the flag records whether the previous
character was inside a whitespace run already replaced. -/
def squashAux : Bool → Str → Str
  | _, [] => []
  | prevWs, c :: rest =>
    if isWs c then
      (if prevWs then [] else ['_']) ++ squashAux true rest
    else c :: squashAux false rest

/-- JavaScript replace of the global whitespace-run regex by an underscore. -/
def replaceWsRuns (s : Str) : Str := squashAux false s

/-- Decimal digit character. -/
def digitChar (d : Nat) : Char := Char.ofNat (48 + d)

def natToStrAux : Nat → Nat → Str → Str
  | 0, _, acc => acc
  | fuel + 1, n, acc =>
    if n < 10 then digitChar n :: acc
    else natToStrAux fuel (n / 10) (digitChar (n % 10) :: acc)

/-- Decimal rendering of a natural number, as interpolated by a template
literal. -/
def natToStr (n : Nat) : Str := natToStrAux (n + 1) n []

/-- Raw input configuration (AgentConfig of agentTemplate.ts): every field
optional; maxMemoryMessages is an integer in the model. -/
structure AgentConfig where
  name : Option Str
  instructions : Option Str
  personality : Option Str
  model : Option Str
  maxMemoryMessages : Option Int

def emptyConfig : AgentConfig := ⟨none, none, none, none, none⟩

/-- JavaScript value-or-default idiom for strings: both an absent field and
an empty string are falsy and fall back to the default. -/
def orDefaultStr (v : Option Str) (d : Str) : Str :=
  match v with
  | none => d
  | some s => if s = [] then d else s

/-- JavaScript value-or-default idiom for numbers: absent and zero are falsy
and fall back to the default; any other value passes through. -/
def orDefaultInt (v : Option Int) (d : Int) : Int :=
  match v with
  | none => d
  | some n => if n = 0 then d else n

def defaultName : Str := "Base Agent".toList
def defaultInstructions : Str := "You are a helpful assistant.".toList
def defaultPersonality : Str := "neutral".toList
def defaultModel : Str := "qwen-2.5-32b".toList

/-- The Agent value built by createAgentTemplate: name, composed
instructions, and model name (the framework object is opaque beyond these). -/
structure Agent where
  name : Str
  instructions : Str
  model : Str
deriving DecidableEq

/-- createAgentTemplate of agentTemplate.ts: default-fill the four string
fields, compose the full system prompt, and build the agent. The
maxMemoryMessages field is not consumed here (memory settings are left to
the framework's defaults). -/
def createAgentTemplate (config : AgentConfig) : Agent :=
  let name := orDefaultStr config.name defaultName
  let instructions := orDefaultStr config.instructions defaultInstructions
  let personality := orDefaultStr config.personality defaultPersonality
  let modelName := orDefaultStr config.model defaultModel
  { name := name
    instructions := composeFullInstructions instructions name personality
    model := modelName }

/-- Time-based fallback identity for an agent created without a usable name. -/
def fallbackAgentId (now : Nat) : Str := "agent_".toList ++ natToStr now

/-- Identity derivation of createAgentHandler (demo.ts server part line 168):
lower-case the name, replace each whitespace run by an underscore, and fall
back to a time-based id when the name is absent or the result is empty. -/
def deriveIdentity (name : Option Str) (now : Nat) : Str :=
  match name with
  | none => fallbackAgentId now
  | some s =>
    if replaceWsRuns (lowerStr s) = [] then fallbackAgentId now
    else replaceWsRuns (lowerStr s)

/-- The normalized agent view returned by createAgentHandler's success
response (demo.ts server part lines 180-190). -/
structure AgentView where
  id : Str
  name : Str
  instructions : Str
  personality : Str
  model : Str
  maxMemoryMessages : Int
deriving DecidableEq

def normalizeView (config : AgentConfig) (now : Nat) : AgentView :=
  { id := deriveIdentity config.name now
    name := orDefaultStr config.name defaultName
    instructions := orDefaultStr config.instructions defaultInstructions
    personality := orDefaultStr config.personality defaultPersonality
    model := orDefaultStr config.model defaultModel
    maxMemoryMessages := orDefaultInt config.maxMemoryMessages 10 }

/-- Process-wide registry agentInstances: a map from identity to agent. -/
def Registry := Str → Option Agent

def emptyRegistry : Registry := fun _ => none

/-- Assignment agentInstances[agentId] = agent: unconditional single-key
overwrite. -/
def register (r : Registry) (agentId : Str) (a : Agent) : Registry :=
  fun k => if k = agentId then some a else r k

/-- Lookup agentInstances[agentId]: an absent key yields a first-class
absence, never an exception. -/
def resolve (r : Registry) (agentId : Str) : Option Agent := r agentId

/-- createAgentHandler of the server part: reject a missing configuration,
otherwise derive the identity, build the agent, store it, and answer with
the normalized view. -/
inductive CreateResult where
  | badRequest (msg : Str)
  | created (view : AgentView)
deriving DecidableEq

def createAgentHandler (r : Registry) (config : Option AgentConfig) (now : Nat) :
    Registry × CreateResult :=
  match config with
  | none => (r, .badRequest "Missing agent configuration".toList)
  | some cfg =>
    let agentId := deriveIdentity cfg.name now
    let agent := createAgentTemplate cfg
    (register r agentId agent, .created (normalizeView cfg now))

/-- Outcome of the external invocation collaborator's stream: a finite
sequence of text fragments, or an abnormal termination carrying an error. -/
inductive StreamOutcome where
  | ok (chunks : List Str)
  | failure (err : Str)
deriving DecidableEq

/-- The values handed to the external invocation collaborator by one
agent.stream call: the agent's composed system prompt and model travel with
the agent object, the message and the two session identifiers are passed
explicitly, and no memory bound is passed (memoryLimit records what the
call supplies as a memory bound, if anything). -/
structure InvocationCall where
  systemPrompt : Str
  message : Str
  threadId : Str
  resourceId : Str
  memoryLimit : Option Int
deriving DecidableEq

def threadTag : Str := "thread_".toList
def userTag : Str := "user_".toList

/-- The idiom id-or-synthesize: a falsy (absent or empty) identifier is
replaced by a tag plus the current clock reading, consuming one clock read;
a truthy one passes through and consumes none. Returns the identifier and
the next clock index. -/
def orSynth (v : Option Str) (tag : Str) (oracle : Nat → Nat) (i : Nat) :
    Str × Nat :=
  match v with
  | none => (tag ++ natToStr (oracle i), i + 1)
  | some s => if s = [] then (tag ++ natToStr (oracle i), i + 1) else (s, i)

/-- The single invocation call built by simulateConversation (agentTemplate.ts
lines 83-86), after its own id-or-synthesize fallbacks. -/
def simCall (agent : Agent) (message : Str) (threadId resourceId : Option Str)
    (oracle : Nat → Nat) (i : Nat) : InvocationCall :=
  let t := orSynth threadId threadTag oracle i
  let r := orSynth resourceId userTag oracle t.2
  { systemPrompt := agent.instructions
    message := message
    threadId := t.1
    resourceId := r.1
    memoryLimit := none }

/-- Result of simulateConversation: the resolved text, the invocation calls
made, the operator log entries, and the clock index after the call. -/
structure SimOut where
  text : Str
  calls : List InvocationCall
  logs : List Str
  nextIdx : Nat
deriving DecidableEq

def apology : Str :=
  "Sorry, I encountered an error while processing your request.".toList

def simErrorTag : Str := "Error in simulateConversation: ".toList

/-- Concatenation of the streamed fragments in arrival order
(fullResponse += chunk). -/
def joinChunks : List Str → Str
  | [] => []
  | c :: rest => c ++ joinChunks rest

/-- simulateConversation of agentTemplate.ts lines 74-106: build the one
stream call, relay the fragments concatenated in order on success, and on
any failure catch it, log the cause and resolve with the fixed apology
string. It always resolves; it never rethrows. -/
def simulateConversation (agent : Agent) (message : Str)
    (threadId resourceId : Option Str) (oracle : Nat → Nat) (i : Nat)
    (collab : InvocationCall → StreamOutcome) : SimOut :=
  let t := orSynth threadId threadTag oracle i
  let r := orSynth resourceId userTag oracle t.2
  let c := simCall agent message threadId resourceId oracle i
  match collab c with
  | .ok chunks => { text := joinChunks chunks, calls := [c], logs := [], nextIdx := r.2 }
  | .failure err =>
      { text := apology, calls := [c], logs := [simErrorTag ++ err], nextIdx := r.2 }

/-- The JSON reply of the interact route: HTTP status code, status marker,
body text (response text or error message), and the echoed identifiers. -/
structure InteractResponse where
  httpStatus : Nat
  status : Str
  body : Str
  threadId : Option Str
  resourceId : Option Str
deriving DecidableEq

def statusSuccess : Str := "success".toList
def statusError : Str := "error".toList

def notFoundBody (agentId : Str) : Str :=
  "Agent with ID ".toList ++ agentId ++ " not found".toList

/-- interactAgentHandler of the server part (lines 195-246): validate the
message, look the agent up, call simulateConversation with id-or-synthesize
arguments, then build the reply re-evaluating the id-or-synthesize
expressions — so the clock is read again for the echoed identifiers. The
inner catch branch is kept as the match on an Except that is ok by
construction, since simulateConversation always resolves. Returns the
reply, the invocation calls made, and the registry after handling. -/
def interactAgentHandler (r : Registry) (agentId : Str) (message : Option Str)
    (threadId resourceId : Option Str) (oracle : Nat → Nat)
    (collab : InvocationCall → StreamOutcome) :
    InteractResponse × List InvocationCall × Registry :=
  match message with
  | none =>
      ({ httpStatus := 400, status := statusError, body := "Missing message".toList
         threadId := none, resourceId := none }, [], r)
  | some msg =>
    if msg = [] then
      ({ httpStatus := 400, status := statusError, body := "Missing message".toList
         threadId := none, resourceId := none }, [], r)
    else
      match resolve r agentId with
      | none =>
          ({ httpStatus := 404, status := statusError, body := notFoundBody agentId
             threadId := none, resourceId := none }, [], r)
      | some agent =>
        let t1 := orSynth threadId threadTag oracle 0
        let r1 := orSynth resourceId userTag oracle t1.2
        let sim := simulateConversation agent msg (some t1.1) (some r1.1) oracle r1.2 collab
        match (Except.ok sim : Except Str SimOut) with
        | .ok out =>
          let t2 := orSynth threadId threadTag oracle out.nextIdx
          let r2 := orSynth resourceId userTag oracle t2.2
          ({ httpStatus := 200, status := statusSuccess, body := out.text
             threadId := some t2.1, resourceId := some r2.1 }, out.calls, r)
        | .error _ =>
          ({ httpStatus := 500, status := statusError
             body := "Agent failed to process the message".toList
             threadId := none, resourceId := none }, [], r)

/-- Process environment at startup: the two credentials the sources check. -/
structure Env where
  googleApiKey : Option Str
  groqApiKey : Option Str

/-- JavaScript truthiness of an environment string: present and non-empty. -/
def truthy : Option Str → Bool
  | none => false
  | some s => !s.isEmpty

def googleFatalMsg : Str :=
  "FATAL: GOOGLE_API_KEY environment variable not found!".toList
def groqFatalMsg : Str :=
  "FATAL: GROQ_API_KEY environment variable not found!".toList

/-- Module-load credential checks: agentTemplate.ts lines 12-14 throw on a
missing GOOGLE_API_KEY, then the server part lines 127-129 throw on a
missing GROQ_API_KEY; both run before any route is installed. -/
def startupCheck (e : Env) : Except Str Unit :=
  if truthy e.googleApiKey = false then .error googleFatalMsg
  else if truthy e.groqApiKey = false then .error groqFatalMsg
  else .ok ()

/-- The server process: on a failed startup check it halts with the fatal
error before serving; otherwise every incoming request is handled and
answered. -/
def serverMain {Req Resp : Type} (e : Env) (handle : Req → Resp)
    (requests : List Req) : Except Str (List Resp) :=
  match startupCheck e with
  | .error m => .error m
  | .ok _ => .ok (requests.map handle)

theorem replaceWsRuns_ne_nil (n : Str) (hn : n ≠ []) : replaceWsRuns n ≠ [] := by
  cases n with
  | nil => exact absurd rfl hn
  | cons c rest =>
    unfold replaceWsRuns squashAux
    by_cases hc : isWs c = true
    · simp [hc]
    · simp [hc]

theorem lowerStr_ne_nil (n : Str) (hn : n ≠ []) : lowerStr n ≠ [] := by
  cases n with
  | nil => exact absurd rfl hn
  | cons c rest => simp [lowerStr]

/-- C1: for every input configuration, after default-filling, the composed
system prompt equals the exact three-part concatenation — the instructions,
then the name line, then the tone line — trimmed of leading and trailing
whitespace; the instructions always precede the name and tone lines. -/
theorem claim1_system_prompt_composition (config : AgentConfig) :
    (createAgentTemplate config).instructions =
      specSystemPrompt (orDefaultStr config.instructions defaultInstructions)
        (orDefaultStr config.name defaultName)
        (orDefaultStr config.personality defaultPersonality) := by
  have h : (createAgentTemplate config).instructions
      = composeFullInstructions (orDefaultStr config.instructions defaultInstructions)
          (orDefaultStr config.name defaultName)
          (orDefaultStr config.personality defaultPersonality) := rfl
  rw [h]
  exact composeFull_eq_spec _ _ _

/-- C2 counterexample: the derived identity of the name consisting of
two spaces, multi, three spaces, space, space, spaces around is
underscore-multi-underscore-space-underscore, not multi-underscore-space:
leading and trailing whitespace runs also become underscores. -/
theorem claim2_counterexample :
    deriveIdentity (some "  multi   space  ".toList) 0 = "_multi_space_".toList ∧
    "_multi_space_".toList ≠ "multi_space".toList := by decide

/-- C2 amended: for every present, non-empty name the derived identity is
the name lower-cased with every run of whitespace — including a leading or
trailing run — replaced by a single underscore; Friendly Bot derives to
friendly_bot, and the two-spaces-multi-spaces-space-spaces example derives
to underscore-multi-underscore-space-underscore. -/
theorem claim2_identity_derivation_amended :
    (∀ (n : Str) (now : Nat), n ≠ [] →
      deriveIdentity (some n) now = replaceWsRuns (lowerStr n)) ∧
    deriveIdentity (some "Friendly Bot".toList) 0 = "friendly_bot".toList ∧
    deriveIdentity (some "  multi   space  ".toList) 0 = "_multi_space_".toList := by
  refine ⟨?_, by decide, by decide⟩
  intro n now hn
  have h := replaceWsRuns_ne_nil (lowerStr n) (lowerStr_ne_nil n hn)
  simp [deriveIdentity, h]

/-- C2 witness: the amended derivation rule evaluated at the concrete
non-empty name Ab-space-c. -/
theorem claim2_witness :
    deriveIdentity (some "Ab c".toList) 5 = replaceWsRuns (lowerStr "Ab c".toList) :=
  claim2_identity_derivation_amended.1 "Ab c".toList 5 (by decide)

/-- C3: with an agent registered at identity a, a message, absent session
identifiers, and the millisecond clock advancing by one between reads, the
invocation collaborator is called with threadId thread_0 while the response
echoes threadId thread_2 — the handler re-evaluates the clock when building
the reply, so the returned pair is not the pair supplied to the invocation. -/
theorem claim3_session_ids_recomputed :
    ((interactAgentHandler (register emptyRegistry "a".toList (createAgentTemplate emptyConfig))
        "a".toList (some "hi".toList) none none (fun i => i)
        (fun _ => .ok ["ok".toList])).2.1.map InvocationCall.threadId
      = ["thread_0".toList]) ∧
    ((interactAgentHandler (register emptyRegistry "a".toList (createAgentTemplate emptyConfig))
        "a".toList (some "hi".toList) none none (fun i => i)
        (fun _ => .ok ["ok".toList])).1.threadId = some "thread_2".toList) ∧
    ("thread_0".toList : Str) ≠ "thread_2".toList := by decide

/-- C4: registering twice at the same identity leaves only the second
definition resolvable at that identity, and every other identity resolves
exactly as before the two registrations. -/
theorem claim4_register_overwrite (r : Registry) (i : Str) (d1 d2 : Agent) :
    resolve (register (register r i d1) i d2) i = some d2 ∧
    ∀ j : Str, j ≠ i → resolve (register (register r i d1) i d2) j = resolve r j := by
  constructor
  · simp [resolve, register]
  · intro j hj
    simp [resolve, register, hj]

/-- C4 witness: the overwrite property evaluated on the empty registry at
identity x, observed at the distinct identity y. -/
theorem claim4_witness :
    resolve (register (register emptyRegistry "x".toList (createAgentTemplate emptyConfig))
        "x".toList (createAgentTemplate ⟨some "B".toList, none, none, none, none⟩))
      "y".toList = resolve emptyRegistry "y".toList :=
  (claim4_register_overwrite emptyRegistry "x".toList (createAgentTemplate emptyConfig)
    (createAgentTemplate ⟨some "B".toList, none, none, none, none⟩)).2 "y".toList (by decide)

/-- C5: a converse call against an identity missing from the registry yields
the not-found response — HTTP 404 with the error status marker and the
not-found body — makes no invocation call, and returns the registry
unchanged; the lookup miss is a first-class absent value, not an exception. -/
theorem claim5_lookup_miss (r : Registry) (agentId msg : Str)
    (threadId resourceId : Option Str) (oracle : Nat → Nat)
    (collab : InvocationCall → StreamOutcome)
    (hmiss : resolve r agentId = none) (hmsg : msg ≠ []) :
    (interactAgentHandler r agentId (some msg) threadId resourceId oracle collab).1.httpStatus = 404 ∧
    (interactAgentHandler r agentId (some msg) threadId resourceId oracle collab).1.status = statusError ∧
    (interactAgentHandler r agentId (some msg) threadId resourceId oracle collab).1.body = notFoundBody agentId ∧
    (interactAgentHandler r agentId (some msg) threadId resourceId oracle collab).2.1 = [] ∧
    (interactAgentHandler r agentId (some msg) threadId resourceId oracle collab).2.2 = r := by
  unfold interactAgentHandler
  simp [hmiss, hmsg]

/-- C5 witness: the lookup-miss behavior evaluated on the empty registry at
identity ghost with message hi. -/
theorem claim5_witness :
    (interactAgentHandler emptyRegistry "ghost".toList (some "hi".toList) none none
      (fun i => i) (fun _ => .ok [])).1.httpStatus = 404 :=
  (claim5_lookup_miss emptyRegistry "ghost".toList "hi".toList none none
    (fun i => i) (fun _ => .ok []) rfl (by decide)).1

/-- C6 counterexample: a supplied maxMemoryMessages of minus five is passed
through normalization unvalidated, so the normalized value is not a
positive integer. -/
theorem claim6_counterexample :
    (normalizeView ⟨none, none, none, none, some (-5)⟩ 0).maxMemoryMessages = -5 ∧
    ¬ (0 < (normalizeView ⟨none, none, none, none, some (-5)⟩ 0).maxMemoryMessages) := by
  decide

/-- C6 amended: normalization is total with the documented defaults — the
fully-empty configuration yields Base Agent, the default instructions,
neutral, the fixed fallback model and ten remembered messages — and an
empty-string field is treated exactly like an absent one (a supplied zero
bound likewise falls back to ten); but a supplied nonzero maxMemoryMessages
is passed through without validation, so it need not be positive. -/
theorem claim6_normalize_defaults_amended :
    (∀ now : Nat, normalizeView emptyConfig now =
      ⟨fallbackAgentId now, defaultName, defaultInstructions, defaultPersonality,
        defaultModel, 10⟩) ∧
    (∀ (cfg : AgentConfig) (now : Nat),
      normalizeView { cfg with name := some [] } now
          = normalizeView { cfg with name := none } now ∧
      normalizeView { cfg with instructions := some [] } now
          = normalizeView { cfg with instructions := none } now ∧
      normalizeView { cfg with personality := some [] } now
          = normalizeView { cfg with personality := none } now ∧
      normalizeView { cfg with model := some [] } now
          = normalizeView { cfg with model := none } now ∧
      normalizeView { cfg with maxMemoryMessages := some 0 } now
          = normalizeView { cfg with maxMemoryMessages := none } now) ∧
    (∀ (cfg : AgentConfig) (now : Nat) (n : Int),
      cfg.maxMemoryMessages = some n → n ≠ 0 →
      (normalizeView cfg now).maxMemoryMessages = n) := by
  refine ⟨fun now => rfl, fun cfg now => ⟨rfl, rfl, rfl, rfl, rfl⟩, ?_⟩
  intro cfg now n h hn
  unfold normalizeView orDefaultInt
  rw [h]
  simp [hn]

/-- C6 witness: the unvalidated pass-through conjunct evaluated at a
supplied bound of seven. -/
theorem claim6_witness :
    (normalizeView ⟨none, none, none, none, some 7⟩ 0).maxMemoryMessages = 7 :=
  claim6_normalize_defaults_amended.2.2 ⟨none, none, none, none, some 7⟩ 0 7 rfl (by decide)

/-- C7 counterexample: for an agent created with maxMemoryMessages five, the
invocation call carries no memory bound at all — its memoryLimit is the
absent value, not five — so the bound is not passed to the collaborator. -/
theorem claim7_counterexample :
    (simCall (createAgentTemplate ⟨none, none, none, none, some 5⟩) "hi".toList
        (some "t".toList) (some "u".toList) (fun i => i) 0).memoryLimit = none ∧
    (none : Option Int) ≠ some 5 := by decide

/-- C7 amended: each converse call makes exactly one invocation call
supplying the agent's composed system prompt, the message, and the resolved
thread and resource identifiers — a supplied non-empty identifier passes
through unchanged — and no memory bound; the collaborator's streamed output
is relayed verbatim as the in-order concatenation of its fragments, with no
retries. -/
theorem claim7_invocation_values_amended (agent : Agent) (msg : Str)
    (threadId resourceId : Option Str) (oracle : Nat → Nat) (i : Nat)
    (collab : InvocationCall → StreamOutcome) (chunks : List Str)
    (hok : collab (simCall agent msg threadId resourceId oracle i) = .ok chunks) :
    (simulateConversation agent msg threadId resourceId oracle i collab).calls
        = [simCall agent msg threadId resourceId oracle i] ∧
    (simCall agent msg threadId resourceId oracle i).systemPrompt = agent.instructions ∧
    (simCall agent msg threadId resourceId oracle i).message = msg ∧
    (simCall agent msg threadId resourceId oracle i).memoryLimit = none ∧
    (∀ t : Str, threadId = some t → t ≠ [] →
      (simCall agent msg threadId resourceId oracle i).threadId = t) ∧
    (simulateConversation agent msg threadId resourceId oracle i collab).text
        = joinChunks chunks := by
  refine ⟨?_, rfl, rfl, rfl, ?_, ?_⟩
  · simp [simulateConversation, hok]
  · intro t ht htne
    subst ht
    simp [simCall, orSynth, htne]
  · simp [simulateConversation, hok]

/-- C7 witness: the amended invocation contract evaluated at a concrete
agent, message, supplied identifiers and a two-fragment stream. -/
theorem claim7_witness :
    (simulateConversation (createAgentTemplate emptyConfig) "m".toList (some "t1".toList)
        (some "u1".toList) (fun i => i) 0 (fun _ => .ok ["a".toList, "b".toList])).text
      = joinChunks ["a".toList, "b".toList] :=
  (claim7_invocation_values_amended (createAgentTemplate emptyConfig) "m".toList
    (some "t1".toList) (some "u1".toList) (fun i => i) 0
    (fun _ => .ok ["a".toList, "b".toList]) ["a".toList, "b".toList] rfl).2.2.2.2.2

/-- C8: when the invocation collaborator fails, the conversation helper
catches the failure at the boundary, resolves with the uniform apology text
instead of propagating the exception, logs the underlying cause, and the
failure is isolated per request: the result depends only on the
collaborator's answer to this request's own call. -/
theorem claim8_failure_degraded_response (agent : Agent) (msg : Str)
    (threadId resourceId : Option Str) (oracle : Nat → Nat) (i : Nat)
    (collab : InvocationCall → StreamOutcome) (err : Str)
    (hfail : collab (simCall agent msg threadId resourceId oracle i) = .failure err) :
    (simulateConversation agent msg threadId resourceId oracle i collab).text = apology ∧
    (simulateConversation agent msg threadId resourceId oracle i collab).logs
        = [simErrorTag ++ err] ∧
    (∀ collab2 : InvocationCall → StreamOutcome,
      collab2 (simCall agent msg threadId resourceId oracle i)
          = collab (simCall agent msg threadId resourceId oracle i) →
      simulateConversation agent msg threadId resourceId oracle i collab2
          = simulateConversation agent msg threadId resourceId oracle i collab) := by
  refine ⟨by simp [simulateConversation, hfail], by simp [simulateConversation, hfail], ?_⟩
  intro collab2 h2
  simp only [simulateConversation]
  rw [h2]

/-- C8 witness: the degraded-response behavior evaluated at a concrete
failing collaborator. -/
theorem claim8_witness :
    (simulateConversation (createAgentTemplate emptyConfig) "m".toList none none
      (fun i => i) 0 (fun _ => .failure "boom".toList)).text = apology :=
  (claim8_failure_degraded_response (createAgentTemplate emptyConfig) "m".toList none none
    (fun i => i) 0 (fun _ => .failure "boom".toList) "boom".toList rfl).1

/-- C9: a missing credential at process start makes the server halt with the
fatal startup error before any request is served — the run produces no
responses — and this is the only fatal class: once the startup check
passes, every request in the run is handled and answered. -/
theorem claim9_startup_fatal :
    (∀ (e : Env) (Req Resp : Type) (handle : Req → Resp) (requests : List Req),
      e.googleApiKey = none ∨ e.groqApiKey = none →
      ∃ m, serverMain e handle requests = .error m) ∧
    (∀ (e : Env) (Req Resp : Type) (handle : Req → Resp) (requests : List Req),
      startupCheck e = .ok () →
      serverMain e handle requests = .ok (requests.map handle)) := by
  constructor
  · intro e Req Resp handle requests habs
    unfold serverMain startupCheck
    rcases habs with hg | hq
    · rw [hg]
      exact ⟨googleFatalMsg, rfl⟩
    · rw [hq]
      by_cases hgo : truthy e.googleApiKey = false
      · rw [if_pos hgo]
        exact ⟨googleFatalMsg, rfl⟩
      · rw [if_neg hgo]
        exact ⟨groqFatalMsg, rfl⟩
  · intro e Req Resp handle requests hok
    unfold serverMain
    rw [hok]

/-- C9 witness: the fatal-startup conjunct evaluated at an environment with
no Google credential and a two-request run. -/
theorem claim9_witness :
    ∃ m, serverMain ⟨none, some "k".toList⟩ (fun n : Nat => n) [1, 2] = .error m :=
  claim9_startup_fatal.1 ⟨none, some "k".toList⟩ Nat Nat (fun n => n) [1, 2] (Or.inl rfl)

/-- C10: when the collaborator fails uniformly, the interact handler still
answers HTTP 200 with the success status marker and the apology text as the
response body — the helper swallows the failure — and the handler's
dedicated degraded branch (HTTP 500) is unreachable for any collaborator
once the agent is found and the message present, so a caller cannot
distinguish a collaborator failure from a genuine reply by the status. -/
theorem claim10_failure_reported_as_success (r : Registry) (agentId : Str)
    (agent : Agent) (msg : Str) (threadId resourceId : Option Str)
    (oracle : Nat → Nat) (collab : InvocationCall → StreamOutcome) (err : Str)
    (hfound : resolve r agentId = some agent) (hmsg : msg ≠ [])
    (hfail : ∀ c, collab c = .failure err) :
    (interactAgentHandler r agentId (some msg) threadId resourceId oracle collab).1.httpStatus = 200 ∧
    (interactAgentHandler r agentId (some msg) threadId resourceId oracle collab).1.status = statusSuccess ∧
    (interactAgentHandler r agentId (some msg) threadId resourceId oracle collab).1.body = apology ∧
    (∀ collab2 : InvocationCall → StreamOutcome,
      (interactAgentHandler r agentId (some msg) threadId resourceId oracle collab2).1.httpStatus ≠ 500) := by
  refine ⟨?_, ?_, ?_, ?_⟩
  · simp [interactAgentHandler, hfound, hmsg]
  · simp [interactAgentHandler, hfound, hmsg]
  · simp [interactAgentHandler, hfound, hmsg, simulateConversation, hfail]
  · intro collab2
    simp [interactAgentHandler, hfound, hmsg]

/-- C10 witness: the success-masking behavior evaluated at a registered
agent and a concrete failing collaborator. -/
theorem claim10_witness :
    (interactAgentHandler (register emptyRegistry "b".toList (createAgentTemplate emptyConfig))
      "b".toList (some "q".toList) none none (fun i => i)
      (fun _ => .failure "boom".toList)).1.body = apology :=
  (claim10_failure_reported_as_success
    (register emptyRegistry "b".toList (createAgentTemplate emptyConfig)) "b".toList
    (createAgentTemplate emptyConfig) "q".toList none none (fun i => i)
    (fun _ => .failure "boom".toList) "boom".toList (by decide) (by decide)
    (fun _ => rfl)).2.2.1

end AgentProto
